import Mathlib

/-!
# OpenMW: ESM bridge variants and the `findPath` navigator query

A shallow embedding of

* `components/esm/esmbridge.hpp`: `ESM::CellVariant`, `ESM::ReferenceVariant`;
* `components/detournavigator/navigatorutils.hpp`: `DetourNavigator::findPath`.

Definitions come first, theorems follow.
-/

/-! ## `components/esm/esmbridge.hpp` -/

namespace ESM

/-- The exception `std::get` throws when the requested alternative is not the
one the variant holds. -/
inductive BadVariantAccess where
  | badVariantAccess
deriving DecidableEq, Repr

/-- The struct `CellVariant`, whose only member is
`std::variant<const ESM4::Cell*, const ESM::Cell*> mVariant`.  The two pointee
types are declared elsewhere and are parameters here: `Esm4Cell` stands for
`const ESM4::Cell*`, `Esm3Cell` for `const ESM::Cell*`.  Alternative 0 of the
variant is `Sum.inl`, alternative 1 is `Sum.inr`. -/
structure CellVariant (Esm4Cell Esm3Cell : Type) where
  mVariant : Esm4Cell ⊕ Esm3Cell

namespace CellVariant

variable {Esm4Cell Esm3Cell : Type}

/-- The constructor `explicit CellVariant(const ESM4::Cell& cell) : mVariant(&cell)`. -/
def ofEsm4 (cell : Esm4Cell) : CellVariant Esm4Cell Esm3Cell :=
  { mVariant := Sum.inl cell }

/-- The constructor `explicit CellVariant(const ESM::Cell& cell) : mVariant(&cell)`. -/
def ofEsm3 (cell : Esm3Cell) : CellVariant Esm4Cell Esm3Cell :=
  { mVariant := Sum.inr cell }

/-- The member `bool isEsm4() const`, that is
`std::holds_alternative<const ESM4::Cell*>(mVariant)`. -/
def isEsm4 (v : CellVariant Esm4Cell Esm3Cell) : Bool :=
  match v.mVariant with
  | Sum.inl _ => true
  | Sum.inr _ => false

end CellVariant

/-- The states of a `std::variant` of two alternatives: it holds a value of
alternative 0, it holds a value of alternative 1, or it is valueless by
exception (a type-changing assignment or `emplace` threw while the new value was
being built). -/
inductive StdVariant (A B : Type) where
  | index0 (value : A)
  | index1 (value : B)
  | valueless
deriving DecidableEq, Repr

/-- The member `valueless_by_exception()` of `std::variant`. -/
def StdVariant.valueless_by_exception {A B : Type} : StdVariant A B → Bool
  | StdVariant.index0 _ => false
  | StdVariant.index1 _ => false
  | StdVariant.valueless => true

/-- The struct `ReferenceVariant`, whose only member is the public
`std::variant<ESM::CellRef, ESM4::Reference> mVariant`.  The two record types
are declared elsewhere and are parameters here.  Alternative 0 is
`ESM::CellRef`, alternative 1 is `ESM4::Reference`.  The member is public and
the records are copied into it, so every state of the variant, the valueless
one included, is a state of the struct. -/
structure ReferenceVariant (CellRef Reference : Type) where
  mVariant : StdVariant CellRef Reference

namespace ReferenceVariant

variable {CellRef Reference : Type}

/-- The constructor `explicit ReferenceVariant(const ESM4::Reference& ref) : mVariant(ref)`. -/
def ofEsm4 (ref : Reference) : ReferenceVariant CellRef Reference :=
  { mVariant := StdVariant.index1 ref }

/-- The constructor `explicit ReferenceVariant(const ESM::CellRef& ref) : mVariant(ref)`. -/
def ofEsm3 (ref : CellRef) : ReferenceVariant CellRef Reference :=
  { mVariant := StdVariant.index0 ref }

/-- The member `bool isESM4() const`, that is
`std::holds_alternative<ESM4::Reference>(mVariant)`, which is false on a
valueless variant. -/
def isESM4 (v : ReferenceVariant CellRef Reference) : Bool :=
  match v.mVariant with
  | StdVariant.index0 _ => false
  | StdVariant.index1 _ => true
  | StdVariant.valueless => false

/-- The member `getEsm3()`, that is `std::get<ESM::CellRef>(mVariant)`: the held
value, or `std::bad_variant_access` when the variant does not hold that
alternative.  The const and non-const overloads have the same body. -/
def getEsm3 (v : ReferenceVariant CellRef Reference) : Except BadVariantAccess CellRef :=
  match v.mVariant with
  | StdVariant.index0 ref => Except.ok ref
  | StdVariant.index1 _ => Except.error BadVariantAccess.badVariantAccess
  | StdVariant.valueless => Except.error BadVariantAccess.badVariantAccess

/-- The member `getEsm4()`, that is `std::get<ESM4::Reference>(mVariant)`: the
held value, or `std::bad_variant_access` when the variant does not hold that
alternative. -/
def getEsm4 (v : ReferenceVariant CellRef Reference) : Except BadVariantAccess Reference :=
  match v.mVariant with
  | StdVariant.index0 _ => Except.error BadVariantAccess.badVariantAccess
  | StdVariant.index1 ref => Except.ok ref
  | StdVariant.valueless => Except.error BadVariantAccess.badVariantAccess

end ReferenceVariant

end ESM

/-! ## `components/detournavigator/navigatorutils.hpp` -/

namespace osg

/-- The vector `osg::Vec3f`, a triple of `float` components.  The components are exact
rationals here; `findPath` itself performs no arithmetic on them. -/
structure Vec3f where
  x : ℚ
  y : ℚ
  z : ℚ
deriving DecidableEq, Repr

end osg

namespace Misc

/-- Modelled from the spec: `Misc::Locked<T>` (`guarded.hpp` is not among the
sources), the scoped view returned by `lock()`.  It holds the lock for its
lifetime and exposes the guarded value. -/
structure Locked (T : Type) where
  mValue : T

/-- Modelled from the spec: `Misc::ScopeGuarded<T>` (`guarded.hpp` is not among
the sources), a value that is reached through `lock()` only. -/
structure ScopeGuarded (T : Type) where
  mValue : T

/-- Modelled from the spec: `ScopeGuarded<T>::lock()` (`guarded.hpp` is not
among the sources), the scoped acquisition that produces the view. -/
def ScopeGuarded.lock {T : Type} (g : ScopeGuarded T) : Locked T :=
  { mValue := g.mValue }

/-- Modelled from the spec: `Locked<T>::operator->()` (`guarded.hpp` is not
among the sources), access to the guarded value through the view. -/
def Locked.get {T : Type} (l : Locked T) : T :=
  l.mValue

end Misc

namespace DetourNavigator

/-- Modelled from the spec: the `Status` enumeration of a path query, whose
declaration (`status.hpp`) is not among the sources. -/
inductive Status where
  | Success
  | PartialPath
  | NavMeshNotFound
  | StartPolygonNotFound
  | EndPolygonNotFound
  | TargetPolygonNotFound
  | MoveAlongSurfaceFailed
  | FindPathOverPolygonsFailed
  | GetPolyHeightFailed
deriving DecidableEq, Repr

/-- Modelled from the spec: the shape tag of `AgentBounds`, `aabb` or
`cylinder`; its declaration is not among the sources. -/
inductive CollisionShapeType where
  | Aabb
  | Cylinder
deriving DecidableEq, Repr

/-- Modelled from the spec: `AgentBounds`, a half-extent box and a shape, whose
declaration is not among the sources.  `findPath` reads `mHalfExtents`. -/
structure AgentBounds where
  mShapeType : CollisionShapeType
  mHalfExtents : osg.Vec3f
deriving DecidableEq, Repr

/-- Modelled from the spec: `Flags`, a bitset of traversal permissions
(`flags.hpp` is not among the sources). -/
abbrev Flags := Nat

/-- Modelled from the spec: `AreaCosts`, a multiplicative cost for each area
kind (ground, water, door, jump, swim); its declaration is not among the
sources. -/
structure AreaCosts where
  ground : ℚ
  water : ℚ
  door : ℚ
  jump : ℚ
  swim : ℚ
deriving DecidableEq, Repr

/-- Modelled from the spec: `RecastSettings`, the part of the tuning bundle the
coordinate transform reads (cell size, cell height, tile size); `settings.hpp`
is not among the sources. -/
structure RecastSettings where
  cellSize : ℚ
  cellHeight : ℚ
  tileSize : Nat
deriving DecidableEq, Repr

/-- Modelled from the spec: `DetourSettings`, the search part of the tuning
bundle (maximum polygons per search, maximum smoothing iterations, steering
target distance, slop distance); `settings.hpp` is not among the sources. -/
structure DetourSettings where
  maxPolygons : Nat
  maxSmoothIter : Nat
  steerDistance : ℚ
  slopDistance : ℚ
deriving DecidableEq, Repr

/-- Modelled from the spec: `Settings`, the tuning bundle inside the Navigator
(`settings.hpp` is not among the sources).  `findPath` reads its members
`mRecast` and `mDetour`. -/
structure Settings where
  mRecast : RecastSettings
  mDetour : DetourSettings
deriving DecidableEq, Repr

/-- Modelled from the spec: `NavMeshCacheItem` (`navmeshcacheitem.hpp` is not
among the sources), the tiled navmesh and its query object.  The Detour types
`dtNavMesh` and `dtNavMeshQuery` are parameters (`Mesh`, `Query`). -/
structure NavMeshCacheItem (Mesh Query : Type) where
  mImpl : Mesh
  mQuery : Query

/-- Modelled from the spec: `NavMeshCacheItem::getImpl()`, the accessor of the
tiled mesh (`navmeshcacheitem.hpp` is not among the sources). -/
def NavMeshCacheItem.getImpl {Mesh Query : Type} (item : NavMeshCacheItem Mesh Query) : Mesh :=
  item.mImpl

/-- Modelled from the spec: `NavMeshCacheItem::getQuery()`, the accessor of the
query object (`navmeshcacheitem.hpp` is not among the sources). -/
def NavMeshCacheItem.getQuery {Mesh Query : Type} (item : NavMeshCacheItem Mesh Query) : Query :=
  item.mQuery

/-- Modelled from the spec: `SharedNavMeshCacheItem`, the shared handle to a
guarded `NavMeshCacheItem` (`navmeshcacheitem.hpp` is not among the sources).
The null pointer is `none` of `Option (SharedNavMeshCacheItem Mesh Query)`. -/
abbrev SharedNavMeshCacheItem (Mesh Query : Type) :=
  Misc.ScopeGuarded (NavMeshCacheItem Mesh Query)

/-- Modelled from the spec: the part of the `Navigator` interface `findPath`
calls, `getNavMesh(agentBounds)` and `getSettings()` (`navigator.hpp` is not
among the sources). -/
structure Navigator (Mesh Query : Type) where
  getNavMesh : AgentBounds → Option (SharedNavMeshCacheItem Mesh Query)
  getSettings : Settings

/-- The arguments of one call of `findSmoothPath`, in the order of its
parameters, the output iterator apart. -/
structure SmoothPathArgs (Mesh Query : Type) where
  navMesh : Mesh
  navMeshQuery : Query
  halfExtents : osg.Vec3f
  stepSize : ℚ
  start : osg.Vec3f
  end_ : osg.Vec3f
  includeFlags : Flags
  areaCosts : AreaCosts
  settings : DetourSettings
  endTolerance : ℚ

/-- What the smooth-path search does that its caller can observe, one action at
a time: it reads the navmesh through the references it was handed, or it
assigns a navmesh-space point through its output iterator. -/
inductive SearchStep where
  | readNavMesh
  | output (point : osg.Vec3f)
deriving DecidableEq, Repr

/-- One run of `findSmoothPath`: its actions in order, and the `Status` it
returns. -/
structure SmoothPathRun where
  steps : List SearchStep
  status : Status

/-- The navmesh-space points a run assigns through its output iterator, in
order. -/
def SmoothPathRun.outputs (run : SmoothPathRun) : List osg.Vec3f :=
  run.steps.filterMap fun s =>
    match s with
    | SearchStep.readNavMesh => none
    | SearchStep.output p => some p

/-- The functions `findPath` calls whose bodies are not among the sources
(`settingsutils.hpp`, `findsmoothpath.hpp`).  They are parameters:
`toNavMeshCoordinates` on a vector, its overload on a `float`,
`fromNavMeshCoordinates`, and `findSmoothPath`, given by the run it performs
on each argument list. -/
structure Externals (Mesh Query : Type) where
  toNavMeshCoordinates : RecastSettings → osg.Vec3f → osg.Vec3f
  toNavMeshCoordinatesFloat : RecastSettings → ℚ → ℚ
  fromNavMeshCoordinates : RecastSettings → osg.Vec3f → osg.Vec3f
  findSmoothPath : SmoothPathArgs Mesh Query → SmoothPathRun

/-- Modelled from the spec: `OutputTransformIterator<OutputIterator>`, the
output adaptor, whose declaration is not among the sources.  It holds the
caller's sink and the Recast settings it was built with.  The caller's sink is
the list of world-space points written to the destination so far. -/
structure OutputTransformIterator where
  mImpl : List osg.Vec3f
  mSettings : RecastSettings

/-- Modelled from the spec: assignment through the output adaptor, which is
not among the sources.  It accepts a navmesh-space point, converts it to world
space with the adaptor's settings and forwards it to the caller's sink. -/
def OutputTransformIterator.assign {Mesh Query : Type} (E : Externals Mesh Query)
    (it : OutputTransformIterator) (value : osg.Vec3f) : OutputTransformIterator :=
  { it with mImpl := it.mImpl ++ [E.fromNavMeshCoordinates it.mSettings value] }

/-- The events of one execution of `findPath`, in program order. -/
inductive Event (Mesh Query : Type) where
  /-- The call `navigator.getNavMesh(agentBounds)` followed by the null check;
  `found` is false when the pointer is null. -/
  | getNavMesh (found : Bool)
  /-- The call `navigator.getSettings()`. -/
  | getSettings
  /-- The call `navMesh->lock()`: the scoped view is created. -/
  | lock
  /-- The read `locked->getImpl()`. -/
  | getImpl
  /-- The read `locked->getQuery()`. -/
  | getQuery
  /-- The call of `findSmoothPath` with these arguments. -/
  | callFindSmoothPath (args : SmoothPathArgs Mesh Query)
  /-- The search reads the navmesh. -/
  | readNavMesh
  /-- A point is stored in the caller's sink. -/
  | write (point : osg.Vec3f)
  /-- The call of `findSmoothPath` returns. -/
  | returnFindSmoothPath (status : Status)
  /-- The scoped view `locked` is destroyed at the end of its scope. -/
  | unlock

/-- The search's actions played against the output adaptor it was handed: the
adaptor after the run and the events of the run. -/
def playSearch {Mesh Query : Type} (E : Externals Mesh Query) :
    List SearchStep → OutputTransformIterator → OutputTransformIterator × List (Event Mesh Query)
  | [], it => (it, [])
  | SearchStep.readNavMesh :: rest, it =>
      let r := playSearch E rest it
      (r.1, Event.readNavMesh :: r.2)
  | SearchStep.output p :: rest, it =>
      let r := playSearch E rest (it.assign E p)
      (r.1, Event.write (E.fromNavMeshCoordinates it.mSettings p) :: r.2)

/-- What one call of `findPath` leaves behind: the `Status` it returns, the
caller's sink after the call, and the events of the execution. -/
structure FindPathResult (Mesh Query : Type) where
  status : Status
  out : List osg.Vec3f
  trace : List (Event Mesh Query)

/-- The function `findPath`.  `out` is the caller's sink as it stands before the call.  The
arguments of `findSmoothPath` are evaluated before the call; `getImpl` comes
before `getQuery` here, the language fixes no order between them. -/
def findPath {Mesh Query : Type} (E : Externals Mesh Query) (navigator : Navigator Mesh Query)
    (agentBounds : AgentBounds) (stepSize : ℚ) (start end_ : osg.Vec3f) (includeFlags : Flags)
    (areaCosts : AreaCosts) (endTolerance : ℚ) (out : List osg.Vec3f) :
    FindPathResult Mesh Query :=
  match navigator.getNavMesh agentBounds with
  | none =>
      { status := Status.NavMeshNotFound, out := out, trace := [Event.getNavMesh false] }
  | some navMesh =>
      let settings := navigator.getSettings
      let outTransform : OutputTransformIterator := { mImpl := out, mSettings := settings.mRecast }
      let locked := navMesh.lock
      let args : SmoothPathArgs Mesh Query :=
        { navMesh := locked.get.getImpl
          navMeshQuery := locked.get.getQuery
          halfExtents := E.toNavMeshCoordinates settings.mRecast agentBounds.mHalfExtents
          stepSize := E.toNavMeshCoordinatesFloat settings.mRecast stepSize
          start := E.toNavMeshCoordinates settings.mRecast start
          end_ := E.toNavMeshCoordinates settings.mRecast end_
          includeFlags := includeFlags
          areaCosts := areaCosts
          settings := settings.mDetour
          endTolerance := endTolerance }
      let run := E.findSmoothPath args
      let played := playSearch E run.steps outTransform
      { status := run.status
        out := played.1.mImpl
        trace :=
          [Event.getNavMesh true, Event.getSettings, Event.lock, Event.getImpl, Event.getQuery,
            Event.callFindSmoothPath args]
            ++ played.2
            ++ [Event.returnFindSmoothPath run.status, Event.unlock] }

/-! ### Reading a trace -/

/-- The points stored in the caller's sink during an execution, in order. -/
def writes {Mesh Query : Type} (trace : List (Event Mesh Query)) : List osg.Vec3f :=
  trace.filterMap fun e =>
    match e with
    | Event.write p => some p
    | _ => none

/-- The argument lists of the calls of `findSmoothPath` made during an
execution, in order. -/
def calls {Mesh Query : Type} (trace : List (Event Mesh Query)) :
    List (SmoothPathArgs Mesh Query) :=
  trace.filterMap fun e =>
    match e with
    | Event.callFindSmoothPath args => some args
    | _ => none

/-- Whether the event is the acquisition `navMesh->lock()`. -/
def Event.isLock {Mesh Query : Type} : Event Mesh Query → Bool
  | Event.lock => true
  | _ => false

/-- Whether the event is the release of the scoped view. -/
def Event.isUnlock {Mesh Query : Type} : Event Mesh Query → Bool
  | Event.unlock => true
  | _ => false

/-- Whether the event touches the navmesh: the two accessors of the cache item,
and everything from the call of the search to its return, its reads included. -/
def Event.readsNavMesh {Mesh Query : Type} : Event Mesh Query → Bool
  | Event.getImpl => true
  | Event.getQuery => true
  | Event.callFindSmoothPath _ => true
  | Event.readNavMesh => true
  | Event.returnFindSmoothPath _ => true
  | _ => false

/-- One step of the lock monitor.  `held` says whether the scoped view is
alive.  The step fails (`none`) on an acquisition while the view is alive (the
lock is non-reentrant), on a release without a live view, and on an event that
touches the navmesh without a live view. -/
def lockStep {Mesh Query : Type} (held : Bool) (e : Event Mesh Query) : Option Bool :=
  if e.isLock then
    (if held then none else some true)
  else if e.isUnlock then
    (if held then some false else none)
  else if e.readsNavMesh then
    (if held then some true else none)
  else
    some held

/-- The lock monitor run over a trace from the state `held`: every step
succeeds and the trace ends with the view released. -/
def lockDiscipline {Mesh Query : Type} : Bool → List (Event Mesh Query) → Bool
  | held, [] => !held
  | held, e :: rest =>
      match lockStep held e with
      | none => false
      | some held' => lockDiscipline held' rest

/-! ### The coordinate transform of the spec, and a concrete navigator -/

/-- Modelled from the spec: `toNavMeshCoordinates` on a vector, whose body
(`settingsutils.hpp`) is not among the sources.  World space is Z-up, navmesh
space is Y-up; the horizontal axes are scaled by `1 / cellSize`, the vertical
axis by `1 / cellHeight`. -/
def toNavMeshCoordinates (settings : RecastSettings) (position : osg.Vec3f) : osg.Vec3f :=
  { x := position.x / settings.cellSize
    y := position.z / settings.cellHeight
    z := position.y / settings.cellSize }

/-- Modelled from the spec: `toNavMeshCoordinates` on a length, whose body
(`settingsutils.hpp`) is not among the sources.  Step sizes transform with the
same scale factor, without translation. -/
def toNavMeshCoordinatesFloat (settings : RecastSettings) (value : ℚ) : ℚ :=
  value / settings.cellSize

/-- Modelled from the spec: `fromNavMeshCoordinates`, whose body
(`settingsutils.hpp`) is not among the sources.  The inverse of
`toNavMeshCoordinates`: the same operation scaled back. -/
def fromNavMeshCoordinates (settings : RecastSettings) (position : osg.Vec3f) : osg.Vec3f :=
  { x := position.x * settings.cellSize
    y := position.z * settings.cellSize
    z := position.y * settings.cellHeight }

/-- Settings with a cell size and a cell height of one half. -/
def exampleSettings : Settings :=
  { mRecast := { cellSize := 1 / 2, cellHeight := 1 / 2, tileSize := 64 }
    mDetour := { maxPolygons := 4096, maxSmoothIter := 1024, steerDistance := 1, slopDistance := 1 / 100 } }

/-- A search that reads the navmesh, emits its start point, reads the navmesh
again, emits its end point and reports a partial path. -/
def exampleSearch (args : SmoothPathArgs Nat Nat) : SmoothPathRun :=
  { steps := [SearchStep.readNavMesh, SearchStep.output args.start, SearchStep.readNavMesh,
      SearchStep.output args.end_]
    status := Status.PartialPath }

/-- The conversions of the spec together with `exampleSearch`. -/
def exampleExternals : Externals Nat Nat :=
  { toNavMeshCoordinates := toNavMeshCoordinates
    toNavMeshCoordinatesFloat := toNavMeshCoordinatesFloat
    fromNavMeshCoordinates := fromNavMeshCoordinates
    findSmoothPath := exampleSearch }

/-- An agent of half extents (1, 1, 2). -/
def exampleAgent : AgentBounds :=
  { mShapeType := CollisionShapeType.Aabb, mHalfExtents := { x := 1, y := 1, z := 2 } }

/-- An agent no navmesh is registered for. -/
def unknownAgent : AgentBounds :=
  { mShapeType := CollisionShapeType.Cylinder, mHalfExtents := { x := 3, y := 3, z := 3 } }

/-- The guarded cache item registered for `exampleAgent`. -/
def exampleNavMesh : SharedNavMeshCacheItem Nat Nat :=
  { mValue := { mImpl := 7, mQuery := 11 } }

/-- A navigator that has a navmesh for `exampleAgent` and for no other agent. -/
def exampleNavigator : Navigator Nat Nat :=
  { getNavMesh := fun agentBounds => if agentBounds = exampleAgent then some exampleNavMesh else none
    getSettings := exampleSettings }

/-- An area cost table in which every kind costs one. -/
def exampleAreaCosts : AreaCosts :=
  { ground := 1, water := 1, door := 1, jump := 1, swim := 1 }

end DetourNavigator

/-! ## Theorems: `components/esm/esmbridge.hpp` -/

namespace ESM

/-- C9: the kind discriminator reports the constructor that built the variant.
`CellVariant(c).isEsm4()` is true for an ESM4 cell and false for an ESM3 cell;
`ReferenceVariant(r).isESM4()` is true for an `ESM4::Reference` and false for an
`ESM::CellRef`. -/
theorem variant_discriminator_reports_constructor
    {Esm4Cell Esm3Cell CellRef Reference : Type} :
    (∀ c : Esm4Cell, (CellVariant.ofEsm4 c : CellVariant Esm4Cell Esm3Cell).isEsm4 = true) ∧
    (∀ c : Esm3Cell, (CellVariant.ofEsm3 c : CellVariant Esm4Cell Esm3Cell).isEsm4 = false) ∧
    (∀ r : Reference,
      (ReferenceVariant.ofEsm4 r : ReferenceVariant CellRef Reference).isESM4 = true) ∧
    (∀ r : CellRef,
      (ReferenceVariant.ofEsm3 r : ReferenceVariant CellRef Reference).isESM4 = false) :=
  ⟨fun _ => rfl, fun _ => rfl, fun _ => rfl, fun _ => rfl⟩

/-- C10 fails as stated: on the `ReferenceVariant` whose `mVariant` is valueless
by exception, `isESM4()` is false and yet `getEsm3()` fails with bad variant
access, as `getEsm4()` does, so no accessor succeeds. -/
theorem referenceVariant_valueless_no_accessor :
    (ReferenceVariant.mk StdVariant.valueless : ReferenceVariant Nat Nat).isESM4 = false ∧
    (ReferenceVariant.mk StdVariant.valueless : ReferenceVariant Nat Nat).getEsm3
      = Except.error BadVariantAccess.badVariantAccess ∧
    (ReferenceVariant.mk StdVariant.valueless : ReferenceVariant Nat Nat).getEsm4
      = Except.error BadVariantAccess.badVariantAccess ∧
    ¬ ((∃ r, (ReferenceVariant.mk StdVariant.valueless : ReferenceVariant Nat Nat).getEsm3
          = Except.ok r)
        ↔ (ReferenceVariant.mk StdVariant.valueless : ReferenceVariant Nat Nat).isESM4
          = false) := by
  refine ⟨rfl, rfl, rfl, ?_⟩
  simp [ReferenceVariant.getEsm3, ReferenceVariant.isESM4]

/-- C10 as amended: for every `ReferenceVariant` whose `mVariant` holds a value
(it is not valueless by exception) exactly one accessor succeeds.  `getEsm4()`
returns a value exactly when `isESM4()` is true, `getEsm3()` returns a value
exactly when `isESM4()` is false, and the other accessor fails with bad variant
access.  A variant built by a constructor from a reference `r` holds a value,
and the accessor that succeeds on it returns `r`. -/
theorem referenceVariant_exactly_one_accessor {CellRef Reference : Type}
    (v : ReferenceVariant CellRef Reference)
    (hv : v.mVariant.valueless_by_exception = false) :
    (((∃ r, v.getEsm4 = Except.ok r) ↔ v.isESM4 = true) ∧
      ((∃ r, v.getEsm3 = Except.ok r) ↔ v.isESM4 = false) ∧
      (v.isESM4 = true ↔ v.getEsm3 = Except.error BadVariantAccess.badVariantAccess) ∧
      (v.isESM4 = false ↔ v.getEsm4 = Except.error BadVariantAccess.badVariantAccess)) ∧
    (∀ r : Reference,
      (ReferenceVariant.ofEsm4 r : ReferenceVariant CellRef Reference).mVariant.valueless_by_exception
        = false ∧
      (ReferenceVariant.ofEsm4 r : ReferenceVariant CellRef Reference).getEsm4 = Except.ok r ∧
      (ReferenceVariant.ofEsm4 r : ReferenceVariant CellRef Reference).getEsm3
        = Except.error BadVariantAccess.badVariantAccess) ∧
    (∀ r : CellRef,
      (ReferenceVariant.ofEsm3 r : ReferenceVariant CellRef Reference).mVariant.valueless_by_exception
        = false ∧
      (ReferenceVariant.ofEsm3 r : ReferenceVariant CellRef Reference).getEsm3 = Except.ok r ∧
      (ReferenceVariant.ofEsm3 r : ReferenceVariant CellRef Reference).getEsm4
        = Except.error BadVariantAccess.badVariantAccess) := by
  refine ⟨?_, fun _ => ⟨rfl, rfl, rfl⟩, fun _ => ⟨rfl, rfl, rfl⟩⟩
  rcases v with ⟨a | b | _⟩
  · simp [ReferenceVariant.getEsm4, ReferenceVariant.getEsm3, ReferenceVariant.isESM4]
  · simp [ReferenceVariant.getEsm4, ReferenceVariant.getEsm3, ReferenceVariant.isESM4]
  · simp [StdVariant.valueless_by_exception] at hv

/-- Witness of C10 as amended: the variant built from the `ESM4::Reference` 5
holds a value. -/
theorem referenceVariant_exactly_one_accessor_witness :
    (ReferenceVariant.ofEsm4 5 : ReferenceVariant Nat Nat).mVariant.valueless_by_exception
      = false ∧
    (((∃ r, (ReferenceVariant.ofEsm4 5 : ReferenceVariant Nat Nat).getEsm4 = Except.ok r)
        ↔ (ReferenceVariant.ofEsm4 5 : ReferenceVariant Nat Nat).isESM4 = true) ∧
      ((∃ r, (ReferenceVariant.ofEsm4 5 : ReferenceVariant Nat Nat).getEsm3 = Except.ok r)
        ↔ (ReferenceVariant.ofEsm4 5 : ReferenceVariant Nat Nat).isESM4 = false) ∧
      ((ReferenceVariant.ofEsm4 5 : ReferenceVariant Nat Nat).isESM4 = true
        ↔ (ReferenceVariant.ofEsm4 5 : ReferenceVariant Nat Nat).getEsm3
          = Except.error BadVariantAccess.badVariantAccess) ∧
      ((ReferenceVariant.ofEsm4 5 : ReferenceVariant Nat Nat).isESM4 = false
        ↔ (ReferenceVariant.ofEsm4 5 : ReferenceVariant Nat Nat).getEsm4
          = Except.error BadVariantAccess.badVariantAccess)) ∧
    (∀ r : Nat,
      (ReferenceVariant.ofEsm4 r : ReferenceVariant Nat Nat).mVariant.valueless_by_exception
        = false ∧
      (ReferenceVariant.ofEsm4 r : ReferenceVariant Nat Nat).getEsm4 = Except.ok r ∧
      (ReferenceVariant.ofEsm4 r : ReferenceVariant Nat Nat).getEsm3
        = Except.error BadVariantAccess.badVariantAccess) ∧
    (∀ r : Nat,
      (ReferenceVariant.ofEsm3 r : ReferenceVariant Nat Nat).mVariant.valueless_by_exception
        = false ∧
      (ReferenceVariant.ofEsm3 r : ReferenceVariant Nat Nat).getEsm3 = Except.ok r ∧
      (ReferenceVariant.ofEsm3 r : ReferenceVariant Nat Nat).getEsm4
        = Except.error BadVariantAccess.badVariantAccess) :=
  ⟨rfl, referenceVariant_exactly_one_accessor (ReferenceVariant.ofEsm4 5) rfl⟩

end ESM

/-! ## Theorems: `components/detournavigator/navigatorutils.hpp` -/

namespace DetourNavigator

section Lemmas

variable {Mesh Query : Type} (E : Externals Mesh Query)

/-- Playing a search never changes the settings of the adaptor. -/
theorem playSearch_mSettings (steps : List SearchStep) (it : OutputTransformIterator) :
    (playSearch E steps it).1.mSettings = it.mSettings := by
  induction steps generalizing it with
  | nil => rfl
  | cons s rest ih =>
    cases s with
    | readNavMesh => simpa [playSearch] using ih it
    | output p => simpa [playSearch, OutputTransformIterator.assign] using ih (it.assign E p)

/-- Playing a search appends to the sink the conversion of each point the
search emits, in order, and does nothing else to the sink. -/
theorem playSearch_mImpl (steps : List SearchStep) (it : OutputTransformIterator) :
    (playSearch E steps it).1.mImpl
      = it.mImpl ++ ((SmoothPathRun.mk steps Status.Success).outputs).map
          (E.fromNavMeshCoordinates it.mSettings) := by
  induction steps generalizing it with
  | nil => simp [playSearch, SmoothPathRun.outputs]
  | cons s rest ih =>
    cases s with
    | readNavMesh =>
      have h := ih it
      simpa [playSearch, SmoothPathRun.outputs] using h
    | output p =>
      have h := ih (it.assign E p)
      simpa [playSearch, SmoothPathRun.outputs, OutputTransformIterator.assign] using h

/-- The outputs of a run do not depend on its status. -/
theorem outputs_eq_of_steps (run : SmoothPathRun) :
    run.outputs = (SmoothPathRun.mk run.steps Status.Success).outputs := rfl

/-- The write events of a played search are the conversions of the points the
search emits, in order. -/
theorem writes_playSearch (steps : List SearchStep) (it : OutputTransformIterator) :
    writes (playSearch E steps it).2
      = ((SmoothPathRun.mk steps Status.Success).outputs).map
          (E.fromNavMeshCoordinates it.mSettings) := by
  induction steps generalizing it with
  | nil => simp [playSearch, SmoothPathRun.outputs, writes]
  | cons s rest ih =>
    cases s with
    | readNavMesh =>
      have h := ih it
      simpa [playSearch, SmoothPathRun.outputs, writes] using h
    | output p =>
      have h := ih (it.assign E p)
      simpa [playSearch, SmoothPathRun.outputs, writes, OutputTransformIterator.assign] using h

/-- A played search calls `findSmoothPath` zero times. -/
theorem calls_playSearch (steps : List SearchStep) (it : OutputTransformIterator) :
    calls (playSearch E steps it).2 = [] := by
  induction steps generalizing it with
  | nil => simp [playSearch, calls]
  | cons s rest ih =>
    cases s with
    | readNavMesh =>
      have h := ih it
      simpa [playSearch, calls] using h
    | output p =>
      have h := ih (it.assign E p)
      simpa [playSearch, calls] using h

/-- A played search neither acquires nor releases the lock. -/
theorem filter_lock_playSearch (steps : List SearchStep) (it : OutputTransformIterator) :
    (playSearch E steps it).2.filter Event.isLock = [] ∧
    (playSearch E steps it).2.filter Event.isUnlock = [] := by
  induction steps generalizing it with
  | nil => simp [playSearch]
  | cons s rest ih =>
    cases s with
    | readNavMesh =>
      have h := ih it
      simpa [playSearch, Event.isLock, Event.isUnlock] using h
    | output p =>
      have h := ih (it.assign E p)
      simpa [playSearch, Event.isLock, Event.isUnlock] using h

/-- With the scoped view alive, the lock monitor passes over a played search. -/
theorem lockDiscipline_playSearch (steps : List SearchStep) (it : OutputTransformIterator)
    (rest : List (Event Mesh Query)) :
    lockDiscipline true ((playSearch E steps it).2 ++ rest) = lockDiscipline true rest := by
  induction steps generalizing it with
  | nil => simp [playSearch]
  | cons s tail ih =>
    cases s with
    | readNavMesh =>
      have h := ih it
      simpa [playSearch, lockDiscipline, lockStep, Event.isLock, Event.isUnlock,
        Event.readsNavMesh] using h
    | output p =>
      have h := ih (it.assign E p)
      simpa [playSearch, lockDiscipline, lockStep, Event.isLock, Event.isUnlock,
        Event.readsNavMesh] using h

/-- The calls of a concatenated trace are the calls of its parts. -/
theorem calls_append (a b : List (Event Mesh Query)) : calls (a ++ b) = calls a ++ calls b := by
  simp [calls]

/-- The writes of a concatenated trace are the writes of its parts. -/
theorem writes_append (a b : List (Event Mesh Query)) :
    writes (a ++ b) = writes a ++ writes b := by
  simp [writes]

/-- With a navmesh, the trace of `findPath` holds one call of `findSmoothPath`,
with the arguments written in the source. -/
theorem calls_findPath_some (navigator : Navigator Mesh Query) (agentBounds : AgentBounds)
    (stepSize : ℚ) (start end_ : osg.Vec3f) (includeFlags : Flags) (areaCosts : AreaCosts)
    (endTolerance : ℚ) (out : List osg.Vec3f) (navMesh : SharedNavMeshCacheItem Mesh Query)
    (h : navigator.getNavMesh agentBounds = some navMesh) :
    calls (findPath E navigator agentBounds stepSize start end_ includeFlags areaCosts
      endTolerance out).trace =
      [{ navMesh := navMesh.lock.get.getImpl
         navMeshQuery := navMesh.lock.get.getQuery
         halfExtents := E.toNavMeshCoordinates navigator.getSettings.mRecast agentBounds.mHalfExtents
         stepSize := E.toNavMeshCoordinatesFloat navigator.getSettings.mRecast stepSize
         start := E.toNavMeshCoordinates navigator.getSettings.mRecast start
         end_ := E.toNavMeshCoordinates navigator.getSettings.mRecast end_
         includeFlags := includeFlags
         areaCosts := areaCosts
         settings := navigator.getSettings.mDetour
         endTolerance := endTolerance }] := by
  simp only [findPath, h]
  rw [calls_append, calls_append, calls_playSearch]
  simp [calls]

/-- With a navmesh, the status `findPath` returns is the status of the run of
`findSmoothPath` on the arguments of the call it made. -/
theorem status_findPath_some (navigator : Navigator Mesh Query) (agentBounds : AgentBounds)
    (stepSize : ℚ) (start end_ : osg.Vec3f) (includeFlags : Flags) (areaCosts : AreaCosts)
    (endTolerance : ℚ) (out : List osg.Vec3f) (navMesh : SharedNavMeshCacheItem Mesh Query)
    (h : navigator.getNavMesh agentBounds = some navMesh) (args : SmoothPathArgs Mesh Query)
    (hargs : calls (findPath E navigator agentBounds stepSize start end_ includeFlags areaCosts
      endTolerance out).trace = [args]) :
    (findPath E navigator agentBounds stepSize start end_ includeFlags areaCosts
      endTolerance out).status = (E.findSmoothPath args).status := by
  rw [calls_findPath_some E navigator agentBounds stepSize start end_ includeFlags areaCosts
    endTolerance out navMesh h] at hargs
  rw [← List.singleton_injective hargs]
  simp only [findPath, h]

/-- With a navmesh, the sink after `findPath` is the sink before it followed by
the conversions of the points the search emitted, under the Recast settings of
the navigator. -/
theorem out_findPath_some (navigator : Navigator Mesh Query) (agentBounds : AgentBounds)
    (stepSize : ℚ) (start end_ : osg.Vec3f) (includeFlags : Flags) (areaCosts : AreaCosts)
    (endTolerance : ℚ) (out : List osg.Vec3f) (navMesh : SharedNavMeshCacheItem Mesh Query)
    (h : navigator.getNavMesh agentBounds = some navMesh) (args : SmoothPathArgs Mesh Query)
    (hargs : calls (findPath E navigator agentBounds stepSize start end_ includeFlags areaCosts
      endTolerance out).trace = [args]) :
    (findPath E navigator agentBounds stepSize start end_ includeFlags areaCosts
      endTolerance out).out
      = out ++ (E.findSmoothPath args).outputs.map
          (E.fromNavMeshCoordinates navigator.getSettings.mRecast) := by
  rw [calls_findPath_some E navigator agentBounds stepSize start end_ includeFlags areaCosts
    endTolerance out navMesh h] at hargs
  rw [← List.singleton_injective hargs]
  simp only [findPath, h]
  rw [playSearch_mImpl, ← outputs_eq_of_steps]

/-- With a navmesh, the writes to the caller's sink during `findPath` are the
conversions of the points the search emitted, under the Recast settings of the
navigator. -/
theorem writes_findPath_some (navigator : Navigator Mesh Query) (agentBounds : AgentBounds)
    (stepSize : ℚ) (start end_ : osg.Vec3f) (includeFlags : Flags) (areaCosts : AreaCosts)
    (endTolerance : ℚ) (out : List osg.Vec3f) (navMesh : SharedNavMeshCacheItem Mesh Query)
    (h : navigator.getNavMesh agentBounds = some navMesh) (args : SmoothPathArgs Mesh Query)
    (hargs : calls (findPath E navigator agentBounds stepSize start end_ includeFlags areaCosts
      endTolerance out).trace = [args]) :
    writes (findPath E navigator agentBounds stepSize start end_ includeFlags areaCosts
      endTolerance out).trace
      = (E.findSmoothPath args).outputs.map
          (E.fromNavMeshCoordinates navigator.getSettings.mRecast) := by
  rw [calls_findPath_some E navigator agentBounds stepSize start end_ includeFlags areaCosts
    endTolerance out navMesh h] at hargs
  rw [← List.singleton_injective hargs]
  simp only [findPath, h]
  rw [writes_append, writes_append, writes_playSearch, ← outputs_eq_of_steps]
  simp [writes]

end Lemmas

/-- The lock monitor rejects a navmesh read without a live view, and a trace that
ends with the view still alive. -/
theorem lockDiscipline_rejects :
    lockDiscipline false [(Event.readNavMesh : Event Nat Nat)] = false ∧
    lockDiscipline false [(Event.lock : Event Nat Nat), Event.readNavMesh] = false ∧
    lockDiscipline false [(Event.lock : Event Nat Nat), Event.lock] = false := by
  decide

/-- With a navmesh, `findSmoothPath` receives the caller's `endTolerance` as it
was passed to `findPath`. -/
theorem findPath_endTolerance_as_passed {Mesh Query : Type} (E : Externals Mesh Query)
    (navigator : Navigator Mesh Query) (agentBounds : AgentBounds) (stepSize : ℚ)
    (start end_ : osg.Vec3f) (includeFlags : Flags) (areaCosts : AreaCosts) (endTolerance : ℚ)
    (out : List osg.Vec3f) (navMesh : SharedNavMeshCacheItem Mesh Query)
    (h : navigator.getNavMesh agentBounds = some navMesh) :
    ∃ args : SmoothPathArgs Mesh Query,
      calls (findPath E navigator agentBounds stepSize start end_ includeFlags areaCosts
        endTolerance out).trace = [args] ∧
      args.endTolerance = endTolerance :=
  ⟨_, calls_findPath_some E navigator agentBounds stepSize start end_ includeFlags areaCosts
    endTolerance out navMesh h, rfl⟩

/-- C1: if `navigator.getNavMesh(agentBounds)` yields no navmesh, `findPath`
returns `Status::NavMeshNotFound`, leaves the caller's sink as it was, does not
call `findSmoothPath` and writes nothing through the output iterator. -/
theorem findPath_navMeshNotFound {Mesh Query : Type} (E : Externals Mesh Query)
    (navigator : Navigator Mesh Query) (agentBounds : AgentBounds) (stepSize : ℚ)
    (start end_ : osg.Vec3f) (includeFlags : Flags) (areaCosts : AreaCosts) (endTolerance : ℚ)
    (out : List osg.Vec3f) (h : navigator.getNavMesh agentBounds = none) :
    (findPath E navigator agentBounds stepSize start end_ includeFlags areaCosts
      endTolerance out).status = Status.NavMeshNotFound ∧
    (findPath E navigator agentBounds stepSize start end_ includeFlags areaCosts
      endTolerance out).out = out ∧
    calls (findPath E navigator agentBounds stepSize start end_ includeFlags areaCosts
      endTolerance out).trace = [] ∧
    writes (findPath E navigator agentBounds stepSize start end_ includeFlags areaCosts
      endTolerance out).trace = [] := by
  simp [findPath, h, calls, writes]

/-- Witness of C1: `exampleNavigator` has no navmesh for `unknownAgent`. -/
theorem findPath_navMeshNotFound_witness :
    exampleNavigator.getNavMesh unknownAgent = none ∧
    (findPath exampleExternals exampleNavigator unknownAgent 1 ⟨0, 0, 0⟩ ⟨4, 4, 0⟩ 1
      exampleAreaCosts 3 [⟨9, 9, 9⟩]).status = Status.NavMeshNotFound ∧
    (findPath exampleExternals exampleNavigator unknownAgent 1 ⟨0, 0, 0⟩ ⟨4, 4, 0⟩ 1
      exampleAreaCosts 3 [⟨9, 9, 9⟩]).out = [⟨9, 9, 9⟩] ∧
    calls (findPath exampleExternals exampleNavigator unknownAgent 1 ⟨0, 0, 0⟩ ⟨4, 4, 0⟩ 1
      exampleAreaCosts 3 [⟨9, 9, 9⟩]).trace = [] ∧
    writes (findPath exampleExternals exampleNavigator unknownAgent 1 ⟨0, 0, 0⟩ ⟨4, 4, 0⟩ 1
      exampleAreaCosts 3 [⟨9, 9, 9⟩]).trace = [] :=
  ⟨rfl,
    findPath_navMeshNotFound exampleExternals exampleNavigator unknownAgent 1 ⟨0, 0, 0⟩
      ⟨4, 4, 0⟩ 1 exampleAreaCosts 3 [⟨9, 9, 9⟩] rfl⟩

/-- C3: with a navmesh, `findSmoothPath` is called exactly once; its half
extents, step size, start and end are `toNavMeshCoordinates` of
`agentBounds.mHalfExtents`, `stepSize`, `start` and `end` under the Recast
settings of `navigator.getSettings()`, `includeFlags` and `areaCosts` are passed
unchanged, and its Detour settings are `navigator.getSettings().mDetour`.  The
call is the one whose run `findPath` hands on: the status returned and the
points the sink receives are those of the search on these arguments. -/
theorem findPath_calls_findSmoothPath_once {Mesh Query : Type} (E : Externals Mesh Query)
    (navigator : Navigator Mesh Query) (agentBounds : AgentBounds) (stepSize : ℚ)
    (start end_ : osg.Vec3f) (includeFlags : Flags) (areaCosts : AreaCosts) (endTolerance : ℚ)
    (out : List osg.Vec3f) (navMesh : SharedNavMeshCacheItem Mesh Query)
    (h : navigator.getNavMesh agentBounds = some navMesh) :
    ∃ args : SmoothPathArgs Mesh Query,
      calls (findPath E navigator agentBounds stepSize start end_ includeFlags areaCosts
        endTolerance out).trace = [args] ∧
      args.halfExtents
        = E.toNavMeshCoordinates navigator.getSettings.mRecast agentBounds.mHalfExtents ∧
      args.stepSize = E.toNavMeshCoordinatesFloat navigator.getSettings.mRecast stepSize ∧
      args.start = E.toNavMeshCoordinates navigator.getSettings.mRecast start ∧
      args.end_ = E.toNavMeshCoordinates navigator.getSettings.mRecast end_ ∧
      args.includeFlags = includeFlags ∧
      args.areaCosts = areaCosts ∧
      args.settings = navigator.getSettings.mDetour ∧
      args.navMesh = navMesh.lock.get.getImpl ∧
      args.navMeshQuery = navMesh.lock.get.getQuery ∧
      (findPath E navigator agentBounds stepSize start end_ includeFlags areaCosts
        endTolerance out).status = (E.findSmoothPath args).status ∧
      (findPath E navigator agentBounds stepSize start end_ includeFlags areaCosts
        endTolerance out).out
        = out ++ (E.findSmoothPath args).outputs.map
            (E.fromNavMeshCoordinates navigator.getSettings.mRecast) := by
  have hc := calls_findPath_some E navigator agentBounds stepSize start end_ includeFlags
    areaCosts endTolerance out navMesh h
  exact ⟨_, hc, rfl, rfl, rfl, rfl, rfl, rfl, rfl, rfl, rfl,
    status_findPath_some E navigator agentBounds stepSize start end_ includeFlags
      areaCosts endTolerance out navMesh h _ hc,
    out_findPath_some E navigator agentBounds stepSize start end_ includeFlags
      areaCosts endTolerance out navMesh h _ hc⟩

/-- Witness of C3: `exampleNavigator` has a navmesh for `exampleAgent`. -/
theorem findPath_calls_findSmoothPath_once_witness :
    exampleNavigator.getNavMesh exampleAgent = some exampleNavMesh ∧
    ∃ args : SmoothPathArgs Nat Nat,
      calls (findPath exampleExternals exampleNavigator exampleAgent 1 ⟨0, 0, 0⟩ ⟨4, 4, 0⟩ 1
        exampleAreaCosts 3 []).trace = [args] ∧
      args.halfExtents = exampleExternals.toNavMeshCoordinates
        exampleNavigator.getSettings.mRecast exampleAgent.mHalfExtents ∧
      args.stepSize = exampleExternals.toNavMeshCoordinatesFloat
        exampleNavigator.getSettings.mRecast 1 ∧
      args.start = exampleExternals.toNavMeshCoordinates
        exampleNavigator.getSettings.mRecast ⟨0, 0, 0⟩ ∧
      args.end_ = exampleExternals.toNavMeshCoordinates
        exampleNavigator.getSettings.mRecast ⟨4, 4, 0⟩ ∧
      args.includeFlags = 1 ∧
      args.areaCosts = exampleAreaCosts ∧
      args.settings = exampleNavigator.getSettings.mDetour ∧
      args.navMesh = exampleNavMesh.lock.get.getImpl ∧
      args.navMeshQuery = exampleNavMesh.lock.get.getQuery ∧
      (findPath exampleExternals exampleNavigator exampleAgent 1 ⟨0, 0, 0⟩ ⟨4, 4, 0⟩ 1
        exampleAreaCosts 3 []).status = (exampleExternals.findSmoothPath args).status ∧
      (findPath exampleExternals exampleNavigator exampleAgent 1 ⟨0, 0, 0⟩ ⟨4, 4, 0⟩ 1
        exampleAreaCosts 3 []).out
        = [] ++ (exampleExternals.findSmoothPath args).outputs.map
            (exampleExternals.fromNavMeshCoordinates exampleNavigator.getSettings.mRecast) :=
  ⟨rfl,
    findPath_calls_findSmoothPath_once exampleExternals exampleNavigator exampleAgent 1
      ⟨0, 0, 0⟩ ⟨4, 4, 0⟩ 1 exampleAreaCosts 3 [] exampleNavMesh rfl⟩

/-- C4: with a navmesh, the `Status` `findPath` returns is the `Status` of the
smooth-path search on the arguments of the one call made, whatever that status
is; the caller's sink keeps every element it had, in place, and grows by as
many elements as the search appended, and every write to the sink during the
call is one of those appends. -/
theorem findPath_status_and_sink_passthrough {Mesh Query : Type} (E : Externals Mesh Query)
    (navigator : Navigator Mesh Query) (agentBounds : AgentBounds) (stepSize : ℚ)
    (start end_ : osg.Vec3f) (includeFlags : Flags) (areaCosts : AreaCosts) (endTolerance : ℚ)
    (out : List osg.Vec3f) (navMesh : SharedNavMeshCacheItem Mesh Query)
    (h : navigator.getNavMesh agentBounds = some navMesh) :
    ∃ args : SmoothPathArgs Mesh Query,
      calls (findPath E navigator agentBounds stepSize start end_ includeFlags areaCosts
        endTolerance out).trace = [args] ∧
      (findPath E navigator agentBounds stepSize start end_ includeFlags areaCosts
        endTolerance out).status = (E.findSmoothPath args).status ∧
      (findPath E navigator agentBounds stepSize start end_ includeFlags areaCosts
        endTolerance out).out.take out.length = out ∧
      (findPath E navigator agentBounds stepSize start end_ includeFlags areaCosts
        endTolerance out).out.length = out.length + (E.findSmoothPath args).outputs.length ∧
      writes (findPath E navigator agentBounds stepSize start end_ includeFlags areaCosts
        endTolerance out).trace
        = (findPath E navigator agentBounds stepSize start end_ includeFlags areaCosts
            endTolerance out).out.drop out.length := by
  have hc := calls_findPath_some E navigator agentBounds stepSize start end_ includeFlags
    areaCosts endTolerance out navMesh h
  have ho := out_findPath_some E navigator agentBounds stepSize start end_ includeFlags
    areaCosts endTolerance out navMesh h _ hc
  have hw := writes_findPath_some E navigator agentBounds stepSize start end_ includeFlags
    areaCosts endTolerance out navMesh h _ hc
  refine ⟨_, hc, ?_, ?_, ?_, ?_⟩
  · exact status_findPath_some E navigator agentBounds stepSize start end_ includeFlags
      areaCosts endTolerance out navMesh h _ hc
  · rw [ho]; simp
  · rw [ho]; simp
  · rw [ho, hw]; simp

/-- Witness of C4: `exampleNavigator` has a navmesh for `exampleAgent`, and the
sink holds one point before the call. -/
theorem findPath_status_and_sink_passthrough_witness :
    exampleNavigator.getNavMesh exampleAgent = some exampleNavMesh ∧
    ∃ args : SmoothPathArgs Nat Nat,
      calls (findPath exampleExternals exampleNavigator exampleAgent 1 ⟨0, 0, 0⟩ ⟨4, 4, 0⟩ 1
        exampleAreaCosts 3 [⟨9, 9, 9⟩]).trace = [args] ∧
      (findPath exampleExternals exampleNavigator exampleAgent 1 ⟨0, 0, 0⟩ ⟨4, 4, 0⟩ 1
        exampleAreaCosts 3 [⟨9, 9, 9⟩]).status = (exampleExternals.findSmoothPath args).status ∧
      (findPath exampleExternals exampleNavigator exampleAgent 1 ⟨0, 0, 0⟩ ⟨4, 4, 0⟩ 1
        exampleAreaCosts 3 [⟨9, 9, 9⟩]).out.take [(⟨9, 9, 9⟩ : osg.Vec3f)].length
        = [⟨9, 9, 9⟩] ∧
      (findPath exampleExternals exampleNavigator exampleAgent 1 ⟨0, 0, 0⟩ ⟨4, 4, 0⟩ 1
        exampleAreaCosts 3 [⟨9, 9, 9⟩]).out.length
        = [(⟨9, 9, 9⟩ : osg.Vec3f)].length + (exampleExternals.findSmoothPath args).outputs.length ∧
      writes (findPath exampleExternals exampleNavigator exampleAgent 1 ⟨0, 0, 0⟩ ⟨4, 4, 0⟩ 1
        exampleAreaCosts 3 [⟨9, 9, 9⟩]).trace
        = (findPath exampleExternals exampleNavigator exampleAgent 1 ⟨0, 0, 0⟩ ⟨4, 4, 0⟩ 1
            exampleAreaCosts 3 [⟨9, 9, 9⟩]).out.drop [(⟨9, 9, 9⟩ : osg.Vec3f)].length :=
  ⟨rfl,
    findPath_status_and_sink_passthrough exampleExternals exampleNavigator exampleAgent 1
      ⟨0, 0, 0⟩ ⟨4, 4, 0⟩ 1 exampleAreaCosts 3 [⟨9, 9, 9⟩] exampleNavMesh rfl⟩

/-- C5: with a navmesh, for the points `p1..pn` the smooth-path search appends
to its output, the caller's sink receives exactly `n` points after those it
held, in the same order, the i-th being `pi` converted to world space under
`settings.mRecast`, the settings that converted `start` and `end`; every write
to the caller's sink is such a converted point. -/
theorem findPath_sink_receives_world_points {Mesh Query : Type} (E : Externals Mesh Query)
    (navigator : Navigator Mesh Query) (agentBounds : AgentBounds) (stepSize : ℚ)
    (start end_ : osg.Vec3f) (includeFlags : Flags) (areaCosts : AreaCosts) (endTolerance : ℚ)
    (out : List osg.Vec3f) (navMesh : SharedNavMeshCacheItem Mesh Query)
    (h : navigator.getNavMesh agentBounds = some navMesh) :
    ∃ args : SmoothPathArgs Mesh Query,
      calls (findPath E navigator agentBounds stepSize start end_ includeFlags areaCosts
        endTolerance out).trace = [args] ∧
      args.start = E.toNavMeshCoordinates navigator.getSettings.mRecast start ∧
      args.end_ = E.toNavMeshCoordinates navigator.getSettings.mRecast end_ ∧
      (findPath E navigator agentBounds stepSize start end_ includeFlags areaCosts
        endTolerance out).out
        = out ++ (E.findSmoothPath args).outputs.map
            (E.fromNavMeshCoordinates navigator.getSettings.mRecast) ∧
      writes (findPath E navigator agentBounds stepSize start end_ includeFlags areaCosts
        endTolerance out).trace
        = (E.findSmoothPath args).outputs.map
            (E.fromNavMeshCoordinates navigator.getSettings.mRecast) := by
  have hc := calls_findPath_some E navigator agentBounds stepSize start end_ includeFlags
    areaCosts endTolerance out navMesh h
  exact ⟨_, hc, rfl, rfl,
    out_findPath_some E navigator agentBounds stepSize start end_ includeFlags
      areaCosts endTolerance out navMesh h _ hc,
    writes_findPath_some E navigator agentBounds stepSize start end_ includeFlags
      areaCosts endTolerance out navMesh h _ hc⟩

/-- Witness of C5: `exampleNavigator` has a navmesh for `exampleAgent`, and the
sink holds one point before the call. -/
theorem findPath_sink_receives_world_points_witness :
    exampleNavigator.getNavMesh exampleAgent = some exampleNavMesh ∧
    ∃ args : SmoothPathArgs Nat Nat,
      calls (findPath exampleExternals exampleNavigator exampleAgent 1 ⟨0, 0, 0⟩ ⟨4, 4, 0⟩ 1
        exampleAreaCosts 3 [⟨9, 9, 9⟩]).trace = [args] ∧
      args.start = exampleExternals.toNavMeshCoordinates
        exampleNavigator.getSettings.mRecast ⟨0, 0, 0⟩ ∧
      args.end_ = exampleExternals.toNavMeshCoordinates
        exampleNavigator.getSettings.mRecast ⟨4, 4, 0⟩ ∧
      (findPath exampleExternals exampleNavigator exampleAgent 1 ⟨0, 0, 0⟩ ⟨4, 4, 0⟩ 1
        exampleAreaCosts 3 [⟨9, 9, 9⟩]).out
        = [⟨9, 9, 9⟩] ++ (exampleExternals.findSmoothPath args).outputs.map
            (exampleExternals.fromNavMeshCoordinates exampleNavigator.getSettings.mRecast) ∧
      writes (findPath exampleExternals exampleNavigator exampleAgent 1 ⟨0, 0, 0⟩ ⟨4, 4, 0⟩ 1
        exampleAreaCosts 3 [⟨9, 9, 9⟩]).trace
        = (exampleExternals.findSmoothPath args).outputs.map
            (exampleExternals.fromNavMeshCoordinates exampleNavigator.getSettings.mRecast) :=
  ⟨rfl,
    findPath_sink_receives_world_points exampleExternals exampleNavigator exampleAgent 1
      ⟨0, 0, 0⟩ ⟨4, 4, 0⟩ 1 exampleAreaCosts 3 [⟨9, 9, 9⟩] exampleNavMesh rfl⟩

/-- C8: in every execution of `findPath` the lock monitor accepts the trace, so
no event that touches the navmesh occurs without a live scoped view, the view is
never acquired twice and it is released by the end of the trace.  The null check
is the first event.  With a navmesh there is exactly one acquisition and one
release, and the release is the last event; on the `NavMeshNotFound` exit there
is no acquisition, no release and no event that touches the navmesh. -/
theorem findPath_lock_discipline {Mesh Query : Type} (E : Externals Mesh Query)
    (navigator : Navigator Mesh Query) (agentBounds : AgentBounds) (stepSize : ℚ)
    (start end_ : osg.Vec3f) (includeFlags : Flags) (areaCosts : AreaCosts) (endTolerance : ℚ)
    (out : List osg.Vec3f) :
    lockDiscipline false (findPath E navigator agentBounds stepSize start end_ includeFlags
      areaCosts endTolerance out).trace = true ∧
    (findPath E navigator agentBounds stepSize start end_ includeFlags areaCosts
      endTolerance out).trace.head?
      = some (Event.getNavMesh (navigator.getNavMesh agentBounds).isSome) ∧
    ((findPath E navigator agentBounds stepSize start end_ includeFlags areaCosts
      endTolerance out).trace.filter Event.isLock).length
      = (if (navigator.getNavMesh agentBounds).isSome then 1 else 0) ∧
    ((findPath E navigator agentBounds stepSize start end_ includeFlags areaCosts
      endTolerance out).trace.filter Event.isUnlock).length
      = (if (navigator.getNavMesh agentBounds).isSome then 1 else 0) ∧
    (findPath E navigator agentBounds stepSize start end_ includeFlags areaCosts
      endTolerance out).trace.any Event.readsNavMesh
      = (navigator.getNavMesh agentBounds).isSome ∧
    (findPath E navigator agentBounds stepSize start end_ includeFlags areaCosts
      endTolerance out).trace.getLast?
      = some (if (navigator.getNavMesh agentBounds).isSome then Event.unlock
          else Event.getNavMesh false) := by
  cases h : navigator.getNavMesh agentBounds with
  | none =>
    simp [findPath, h, lockDiscipline, lockStep, Event.isLock, Event.isUnlock,
      Event.readsNavMesh]
  | some navMesh =>
    simp only [findPath, h]
    refine ⟨?_, ?_, ?_, ?_, ?_, ?_⟩
    · simp only [List.cons_append, List.nil_append, List.append_assoc]
      have hsearch := lockDiscipline_playSearch E
        (E.findSmoothPath
          { navMesh := navMesh.lock.get.getImpl
            navMeshQuery := navMesh.lock.get.getQuery
            halfExtents :=
              E.toNavMeshCoordinates navigator.getSettings.mRecast agentBounds.mHalfExtents
            stepSize := E.toNavMeshCoordinatesFloat navigator.getSettings.mRecast stepSize
            start := E.toNavMeshCoordinates navigator.getSettings.mRecast start
            end_ := E.toNavMeshCoordinates navigator.getSettings.mRecast end_
            includeFlags := includeFlags
            areaCosts := areaCosts
            settings := navigator.getSettings.mDetour
            endTolerance := endTolerance }).steps
        { mImpl := out, mSettings := navigator.getSettings.mRecast }
      simp [lockDiscipline, lockStep, Event.isLock, Event.isUnlock, Event.readsNavMesh, hsearch]
    · simp
    · simp [List.filter_append, (filter_lock_playSearch E _ _).1, Event.isLock]
    · simp [List.filter_append, (filter_lock_playSearch E _ _).2, Event.isUnlock]
    · simp [Event.readsNavMesh]
    · simp only [List.cons_append, List.nil_append, List.append_assoc, List.getLast?_cons_cons]
      rw [List.getLast?_cons, List.getLast?_append]
      simp

/-- C2, evaluated on the code: with a cell size of one half, a step size of 1
and an end tolerance of 3, `findSmoothPath` receives the step size converted to
navmesh space (2) and the end tolerance as the caller passed it (3), although
`toNavMeshCoordinates(settings.mRecast, 3)` is 6. -/
theorem findPath_endTolerance_not_converted :
    ∃ args : SmoothPathArgs Nat Nat,
      calls (findPath exampleExternals exampleNavigator exampleAgent 1 ⟨0, 0, 0⟩ ⟨4, 4, 0⟩ 1
        exampleAreaCosts 3 []).trace = [args] ∧
      args.stepSize = 2 ∧
      args.endTolerance = 3 ∧
      exampleExternals.toNavMeshCoordinatesFloat exampleNavigator.getSettings.mRecast 3 = 6 ∧
      args.endTolerance
        ≠ exampleExternals.toNavMeshCoordinatesFloat exampleNavigator.getSettings.mRecast 3 := by
  refine ⟨_, calls_findPath_some exampleExternals exampleNavigator exampleAgent 1 ⟨0, 0, 0⟩
    ⟨4, 4, 0⟩ 1 exampleAreaCosts 3 [] exampleNavMesh rfl, ?_, rfl, ?_, ?_⟩ <;>
  norm_num [exampleExternals, exampleNavigator, exampleSettings, toNavMeshCoordinatesFloat]

/-- C7, evaluated on the code: the value `findPath` returns is a `Status`, not
the output iterator its `@return` comment describes, and it does not tell where
the destination ends.  Called without a navmesh on an empty sink and on a sink
of one point, no path is found and no reading of the returned value as a
position gives the position `out` in both calls. -/
theorem findPath_return_value_not_end_iterator :
    ¬ ∃ position : Status → Nat,
      position (findPath exampleExternals exampleNavigator unknownAgent 1 ⟨0, 0, 0⟩ ⟨4, 4, 0⟩ 1
        exampleAreaCosts 3 []).status
        = (findPath exampleExternals exampleNavigator unknownAgent 1 ⟨0, 0, 0⟩ ⟨4, 4, 0⟩ 1
            exampleAreaCosts 3 []).out.length ∧
      position (findPath exampleExternals exampleNavigator unknownAgent 1 ⟨0, 0, 0⟩ ⟨4, 4, 0⟩ 1
        exampleAreaCosts 3 [⟨9, 9, 9⟩]).status
        = (findPath exampleExternals exampleNavigator unknownAgent 1 ⟨0, 0, 0⟩ ⟨4, 4, 0⟩ 1
            exampleAreaCosts 3 [⟨9, 9, 9⟩]).out.length := by
  rintro ⟨position, h0, h1⟩
  have e0 : (findPath exampleExternals exampleNavigator unknownAgent 1 ⟨0, 0, 0⟩ ⟨4, 4, 0⟩ 1
      exampleAreaCosts 3 []) = ⟨Status.NavMeshNotFound, [], [Event.getNavMesh false]⟩ := rfl
  have e1 : (findPath exampleExternals exampleNavigator unknownAgent 1 ⟨0, 0, 0⟩ ⟨4, 4, 0⟩ 1
      exampleAreaCosts 3 [⟨9, 9, 9⟩])
      = ⟨Status.NavMeshNotFound, [⟨9, 9, 9⟩], [Event.getNavMesh false]⟩ := rfl
  rw [e0] at h0
  rw [e1] at h1
  simp only [List.length_nil, List.length_singleton] at h0 h1
  omega

end DetourNavigator
